import Mathlib

/-!
Shallow embedding of the ferass safe wrapper around the libass C library
(src/library.rs, src/track.rs, src/render.rs), together with proofs about
the properties its specification states.

Conventions of the embedding:
* C strings and path byte buffers are `List Nat` (one entry per byte).
* Rust `i32` / `i64` values are `Int` with the relevant range checks explicit.
* Rust `u32` values are `Nat` (range checks explicit where they matter).
* Fallible Rust functions (`Result`, `Option`, `?`) become `Except` / `Option`.
* A call into the native engine is represented by a record of the arguments
  the wrapper would pass; an error result produced before that record is
  built means no native call was performed.
-/

namespace Ferass

/-- Is a byte a UTF-8 continuation byte (0x80..0xBF)?  Embeds the check done
by `std::str::from_utf8` (used via `OsString::into_string` and
`CStr::to_str`). -/
def contOk (b : Nat) : Bool := 128 ≤ b && b ≤ 191

/-- UTF-8 validity of a byte sequence, as checked by `std::str::from_utf8`:
this is the check behind `OsString::into_string` (render.rs `path_to_ptr`)
and `CStr::to_str` (library.rs `message_handler`). -/
def validUtf8 : List Nat → Bool
  | [] => true
  | b :: rest =>
    if b ≤ 127 then validUtf8 rest
    else if 194 ≤ b && b ≤ 223 then
      match rest with
      | c1 :: r => contOk c1 && validUtf8 r
      | [] => false
    else if b = 224 then
      match rest with
      | c1 :: c2 :: r => (160 ≤ c1 && c1 ≤ 191) && contOk c2 && validUtf8 r
      | _ => false
    else if 225 ≤ b && b ≤ 236 then
      match rest with
      | c1 :: c2 :: r => contOk c1 && contOk c2 && validUtf8 r
      | _ => false
    else if b = 237 then
      match rest with
      | c1 :: c2 :: r => (128 ≤ c1 && c1 ≤ 159) && contOk c2 && validUtf8 r
      | _ => false
    else if 238 ≤ b && b ≤ 239 then
      match rest with
      | c1 :: c2 :: r => contOk c1 && contOk c2 && validUtf8 r
      | _ => false
    else if b = 240 then
      match rest with
      | c1 :: c2 :: c3 :: r => (144 ≤ c1 && c1 ≤ 191) && contOk c2 && contOk c3 && validUtf8 r
      | _ => false
    else if 241 ≤ b && b ≤ 243 then
      match rest with
      | c1 :: c2 :: c3 :: r => contOk c1 && contOk c2 && contOk c3 && validUtf8 r
      | _ => false
    else if b = 244 then
      match rest with
      | c1 :: c2 :: c3 :: r => (128 ≤ c1 && c1 ≤ 143) && contOk c2 && contOk c3 && validUtf8 r
      | _ => false
    else false

/-- library.rs `LogLevel`: the libass log severities exposed to the host. -/
inductive LogLevel where
  | Fatal
  | Error
  | Warn
  | Info
  | Application
  | Verbose
  | Debug
deriving DecidableEq, Repr

/-- library.rs `impl From<i32> for LogLevel`: 0, 1, 2, 4, 6, 7 map to their
named severities, every other integer maps to `Application`. -/
def LogLevel.ofI32 (log_level : Int) : LogLevel :=
  if log_level = 0 then .Fatal
  else if log_level = 1 then .Error
  else if log_level = 2 then .Warn
  else if log_level = 4 then .Info
  else if log_level = 6 then .Verbose
  else if log_level = 7 then .Debug
  else .Application

/-- library.rs `message_handler` lines 239-255: the decoded message text.
A null `fmt` pointer is modelled as `none` and yields the empty string;
a non-null pointer carries the C string's bytes, kept verbatim when they
are valid UTF-8 and replaced by the empty string otherwise
(`CStr::from_ptr(fmt).to_str().unwrap_or("")`). -/
def decodeMessage (fmt : Option (List Nat)) : List Nat :=
  match fmt with
  | none => []
  | some bytes => if validUtf8 bytes then bytes else []

/-- library.rs `message_handler`: the C-ABI logging trampoline.
`dataPresent` models whether the opaque closure pointer reconstructs to a
valid reference (`data.cast::<&dyn Fn(LogLevel, &str)>().as_ref()` is
`Some`, i.e. the pointer is non-null).  The result records the single
invocation of the registered closure: `some (level, message)` when the
closure is called with those arguments, `none` when the invocation is
silently dropped. -/
def message_handler (level : Int) (fmt : Option (List Nat)) (dataPresent : Bool) :
    Option (LogLevel × List Nat) :=
  let mess := decodeMessage fmt
  let log_lev := LogLevel.ofI32 level
  if dataPresent then some (log_lev, mess) else none

/-- library.rs `FontProvider`: the font providers libass can be asked to use. -/
inductive FontProvider where
  | None
  | Autodetect
  | CoreText
  | Fontconfig
  | DirectWrite
deriving DecidableEq, Repr

/-- The `repr(i32)` discriminant of each `FontProvider` variant
(`ASS_FONTPROVIDER_NONE = 0` through `ASS_FONTPROVIDER_DIRECTWRITE = 4`). -/
def FontProvider.toI32 : FontProvider → Int
  | .None => 0
  | .Autodetect => 1
  | .CoreText => 2
  | .Fontconfig => 3
  | .DirectWrite => 4

/-- All `FontProvider` variants. -/
def allFontProviders : List FontProvider :=
  [.None, .Autodetect, .CoreText, .Fontconfig, .DirectWrite]

/-- library.rs `impl From<i32> for FontProvider` lines 288-300: the defined
conversion from a native integer, mapping every unrecognized value to
`FontProvider.None`.  (Note: `get_avaliable_font_providers` does NOT call
this conversion; see `get_avaliable_font_providers` below.) -/
def fontProviderOfI32 (value : Int) : FontProvider :=
  if value = 1 then .Autodetect
  else if value = 2 then .CoreText
  else if value = 3 then .Fontconfig
  else if value = 4 then .DirectWrite
  else .None

/-- library.rs `Library::get_avaliable_font_providers` lines 68-100.
The native out-parameters are modelled as `none` for a null array pointer
and `some arr` for an array of `count` raw `i32` values.  The returned
`Vec<FontProvider>` is represented by the `i32` representation of its
elements: the source builds the vector with
`slice::from_raw_parts(out_buf.as_ptr().cast(), count)` followed by
`extend_from_slice`, i.e. it reinterprets the raw integers as
`FontProvider` (a `repr(i32)` enum) without any conversion, so each
returned element's representation is exactly the native integer. -/
def get_avaliable_font_providers (native : Option (List Int)) : List Int :=
  match native with
  | some arr => arr
  | none => []

/-- track.rs `SliceTooLong`: a chunk too large for libass to index (i32). -/
inductive SliceTooLong where
  | mk
deriving DecidableEq, Repr

/-- State of a native `ASS_Track` as far as ingestion is concerned: the
sequence of chunks that `ass_process_data` has copied in. -/
structure TrackState where
  chunks : List (List Nat)
deriving DecidableEq, Repr

/-- track.rs `Track::process_slice` lines 65-77.  `data.len().try_into()`
into `i32` succeeds exactly when the byte length is at most `i32::MAX`;
on success `ass_process_data` copies the chunk into the track (modelled by
appending it to `chunks`), on failure `SliceTooLong` is returned and the
native call is not made, leaving the track state unchanged. -/
def process_slice (s : TrackState) (data : List Nat) :
    Except SliceTooLong Unit × TrackState :=
  if data.length ≤ 2147483647 then
    (Except.ok (), ⟨s.chunks ++ [data]⟩)
  else
    (Except.error SliceTooLong.mk, s)

/-- render.rs `PathErr`: typed errors produced while converting a `PathBuf`
into a C string pointer (`NullInPath` wraps `std::ffi::NulError`, whose
payload we omit; `NotUtf8` carries the offending bytes). -/
inductive PathErr where
  | NullInPath
  | NotUtf8 (bytes : List Nat)
deriving DecidableEq, Repr

/-- render.rs `path_to_ptr` lines 405-415.  `path.into_os_string().into_string()`
fails (with the original bytes) when the path is not valid UTF-8;
`CString::new` then fails when the bytes contain an embedded NUL.  On
success the (leaked) C string's bytes are returned as the pointer's
contents. -/
def path_to_ptr (path : List Nat) : Except PathErr (List Nat) :=
  if validUtf8 path then
    if path.contains 0 then Except.error PathErr.NullInPath
    else Except.ok path
  else Except.error (PathErr.NotUtf8 path)

/-- render.rs `Renderer::set_fonts` lines 215-230: an optional path becomes
either a null pointer (`none`) or the result of `path_to_ptr`. -/
def optPathToPtr : Option (List Nat) → Except PathErr (Option (List Nat))
  | some path => (path_to_ptr path).map some
  | none => Except.ok none

/-- The arguments the wrapper passes to the native `ass_set_fonts` call;
a `set_fonts` result of `Except.ok call` means exactly this native call
was performed, an error result means no native call happened. -/
structure SetFontsCall where
  font : Option (List Nat)
  family : Option (List Nat)
  provider : FontProvider
  config : Option (List Nat)
  update : Bool
deriving DecidableEq, Repr

/-- render.rs `Renderer::set_fonts` lines 204-245.  The default font and
family paths are converted first (each `?` propagating a `PathErr` before
the native call); then, when the provider is `Fontconfig`, the fontconfig
configuration path is discarded (`fontconfig_config = None`); finally the
remaining configuration path is converted and `ass_set_fonts` is invoked. -/
def set_fonts (default_font default_family : Option (List Nat))
    (font_provider : FontProvider) (fontconfig_config : Option (List Nat))
    (update : Bool) : Except PathErr SetFontsCall :=
  match optPathToPtr default_font with
  | Except.error e => Except.error e
  | Except.ok font_out =>
    match optPathToPtr default_family with
    | Except.error e => Except.error e
    | Except.ok family_out =>
      let fontconfig_config :=
        if font_provider = FontProvider.Fontconfig then none else fontconfig_config
      match optPathToPtr fontconfig_config with
      | Except.error e => Except.error e
      | Except.ok config_out =>
        Except.ok ⟨font_out, family_out, font_provider, config_out, update⟩

/-- Is a path supplied to `set_fonts` accepted by `path_to_ptr`? -/
def pathOk (p : List Nat) : Bool := validUtf8 p && !(p.contains 0)

/-- Is an optional path accepted (absent paths always are)? -/
def optOk : Option (List Nat) → Bool
  | none => true
  | some p => pathOk p

/-- Does an error value correspond to one of the supplied paths in the way
render.rs documents: `NotUtf8` carries a non-UTF-8 path, `NullInPath`
reports a valid-UTF-8 path with an embedded NUL byte? -/
def errMatches (e : PathErr) (o : Option (List Nat)) : Prop :=
  ∃ p, o = some p ∧
    ((e = PathErr.NotUtf8 p ∧ validUtf8 p = false) ∨
     (e = PathErr.NullInPath ∧ validUtf8 p = true ∧ p.contains 0 = true))

/-- Rust `u32::try_into::<i32>()`: succeeds exactly when the value is at
most `i32::MAX`. -/
def u32_try_i32 (n : Nat) : Option Int :=
  if n ≤ 2147483647 then some (Int.ofNat n) else none

/-- render.rs `Renderer::set_frame_size` lines 35-47: the pair of `c_int`
values passed to `ass_set_frame_size` — each dimension is
`width.try_into().unwrap_or(0)`, so an out-of-range dimension is
forwarded as 0.  The Rust function returns `()`: there is no error
alternative in its type. -/
def set_frame_size (width height : Nat) : Int × Int :=
  ((u32_try_i32 width).getD 0, (u32_try_i32 height).getD 0)

/-- render.rs `Renderer::set_storage_size` lines 58-68: same forwarding as
`set_frame_size` (`try_into().unwrap_or(0)`), into `ass_set_storage_size`. -/
def set_storage_size (width height : Nat) : Int × Int :=
  ((u32_try_i32 width).getD 0, (u32_try_i32 height).getD 0)

/-- render.rs `Renderer::set_cache_limits` lines 281-291: the pair of
`c_int` values passed to `ass_set_cache_limits` — each limit is
`try_into().unwrap_or(i32::MAX)`, so an out-of-range limit saturates to
`i32::MAX`.  The Rust function returns `()`. -/
def set_cache_limits (glyph_max bitmap_cache : Nat) : Int × Int :=
  ((u32_try_i32 glyph_max).getD 2147483647, (u32_try_i32 bitmap_cache).getD 2147483647)

/-- render.rs `ChangeDetection`: how a frame differs from the previous one. -/
inductive ChangeDetection where
  | Identical
  | DifferentPositions
  | DifferentContent
deriving DecidableEq, Repr

/-- The `repr(i32)` discriminant of each `ChangeDetection` variant. -/
def ChangeDetection.toI32 : ChangeDetection → Int
  | .Identical => 0
  | .DifferentPositions => 1
  | .DifferentContent => 2

/-- render.rs `impl TryFrom<i32> for ChangeDetection` lines 515-526:
`none` models the `FromIntError`. -/
def changeDetectionOfI32 (value : Int) : Option ChangeDetection :=
  if value = 0 then some ChangeDetection.Identical
  else if value = 1 then some ChangeDetection.DifferentPositions
  else if value = 2 then some ChangeDetection.DifferentContent
  else none

/-- render.rs `Renderer::render_frame` lines 301-328.  `ms` is the
timestamp's whole-millisecond value (an `i128` from `time::Duration`);
`detect` is the in/out change-detection slot; `native` models
`ass_render_frame` as a function from the timestamp and the out-slot's
initial value to the image-list pointer (`none` = null) and the value
written to the out pointer.  The outer `Option` distinguishes a normal
return (`some (imageList, detectOut, nativeCalled)`) from the `expect`
panic raised when the native out value is not a valid `ChangeDetection`.
`timestamp.whole_milliseconds().try_into().ok()?` into the native
`c_longlong` succeeds exactly on `[-2^63, 2^63 - 1]`; the `?` returns
`None` from the function before `ass_render_frame` is invoked. -/
def render_frame (ms : Int) (detect : Option ChangeDetection)
    (native : Int → Int → Option Nat × Int) :
    Option (Option Nat × Option ChangeDetection × Bool) :=
  let out_value : Int :=
    match detect with
    | some val => val.toI32
    | none => 0
  if -9223372036854775808 ≤ ms ∧ ms ≤ 9223372036854775807 then
    match detect with
    | some _ =>
      match native ms out_value with
      | (image_out, outv) =>
        match changeDetectionOfI32 outv with
        | some c => some (image_out, some c, true)
        | none => none
    | none =>
      match native ms out_value with
      | (image_out, _) => some (image_out, none, true)
  else
    some (none, detect, false)

/-- A model of `f64` sufficient for `set_line_position`: NaN, the two
infinities, and finite values (every finite double is a rational, and
`f64::clamp` with the finite bounds 0.0 and 100.0 is exact, so the
rational model is faithful). -/
inductive F64 where
  | nan
  | negInf
  | posInf
  | val (x : ℚ)
deriving DecidableEq

/-- IEEE-754 `<` on the modelled doubles: NaN compares false with
everything; the infinities and finite values compare as expected. -/
def F64.lt : F64 → F64 → Bool
  | .nan, _ => false
  | _, .nan => false
  | .negInf, .negInf => false
  | .negInf, .posInf => true
  | .negInf, .val _ => true
  | .posInf, _ => false
  | .val _, .posInf => true
  | .val _, .negInf => false
  | .val x, .val y => decide (x < y)

/-- Rust `f64::clamp(self, min, max)`: `if self < min { min } else ... };
if self > max { max }`.  With a NaN input both comparisons are false and
NaN is returned unchanged. -/
def F64.clamp (x lo hi : F64) : F64 :=
  let x1 := if F64.lt x lo then lo else x
  if F64.lt hi x1 then hi else x1

/-- render.rs `Renderer::set_line_position` lines 177-182: the `f64`
value forwarded to `ass_set_line_position` is
`position.clamp(0.0, 100.0)`. -/
def set_line_position (position : F64) : F64 :=
  F64.clamp position (F64.val 0) (F64.val 100)

/-- Is a modelled double a finite value in `[0, 100]`? -/
def inLinePosRange : F64 → Bool
  | .val x => decide (0 ≤ x ∧ x ≤ 100)
  | _ => false

/-- Identity of resource handles derived from a `Library`. -/
abbrev HandleId := Nat

/-- The liveness state of one `Library` value together with the `Track`
(track.rs lines 10-14: field `lib: &'lib Library`) and `Renderer`
(render.rs lines 22-26: field `parent: &'lib Library`) handles borrowed
from it. -/
structure LibState where
  libAlive : Bool
  tracks : List HandleId
  renderers : List HandleId
deriving DecidableEq, Repr

/-- The operations the host can attempt on the three handle types. -/
inductive Op where
  | newTrack (id : HandleId)
  | dropTrack (id : HandleId)
  | newRenderer (id : HandleId)
  | dropRenderer (id : HandleId)
  | dropLib
deriving DecidableEq, Repr

/-- One operation, filtered by Rust's ownership discipline as the source
encodes it in the types: `Library::new_track` and renderer creation take
`&self`, so they require the library to be alive and record a shared
borrow (`Track.lib` / `Renderer.parent`); dropping a `Track`/`Renderer`
ends its borrow; dropping the `Library` requires exclusive ownership, so
the borrow checker admits it only when no derived handle is still alive.
`none` means the operation is unrepresentable (rejected at compile time)
in that state. -/
def step (s : LibState) : Op → Option LibState
  | .newTrack id =>
    if s.libAlive && !(s.tracks.contains id) then
      some { s with tracks := id :: s.tracks }
    else none
  | .dropTrack id =>
    if s.tracks.contains id then
      some { s with tracks := s.tracks.erase id }
    else none
  | .newRenderer id =>
    if s.libAlive && !(s.renderers.contains id) then
      some { s with renderers := id :: s.renderers }
    else none
  | .dropRenderer id =>
    if s.renderers.contains id then
      some { s with renderers := s.renderers.erase id }
    else none
  | .dropLib =>
    if s.libAlive && s.tracks.isEmpty && s.renderers.isEmpty then
      some { s with libAlive := false }
    else none

/-- Run a sequence of operations; `none` as soon as one is rejected. -/
def run (s : LibState) : List Op → Option LibState
  | [] => some s
  | op :: rest =>
    match step s op with
    | some s1 => run s1 rest
    | none => none

/-- The state right after `Library::new` succeeds: the library is alive and
no derived handle exists. -/
def initState : LibState := ⟨true, [], []⟩

/-- The lifetime invariant of the wrapper: whenever a `Track` or `Renderer`
borrowed from the library is alive, the library itself is alive. -/
def handleInv (s : LibState) : Prop :=
  (s.tracks ≠ [] ∨ s.renderers ≠ []) → s.libAlive = true

theorem handleInv_init : handleInv initState := by
  intro _
  rfl

theorem step_preserves_handleInv {s s1 : LibState} {op : Op} (hs : handleInv s)
    (h : step s op = some s1) : handleInv s1 := by
  cases op with
  | newTrack id =>
    simp only [step] at h
    split at h
    · cases h
      next hc =>
        intro _
        simp only [Bool.and_eq_true] at hc
        exact hc.1
    · cases h
  | dropTrack id =>
    simp only [step] at h
    split at h
    · cases h
      intro h1
      apply hs
      rcases h1 with h1 | h1
      · left
        intro hnil
        rw [hnil] at h1
        simp at h1
      · right
        exact h1
    · cases h
  | newRenderer id =>
    simp only [step] at h
    split at h
    · cases h
      next hc =>
        intro _
        simp only [Bool.and_eq_true] at hc
        exact hc.1
    · cases h
  | dropRenderer id =>
    simp only [step] at h
    split at h
    · cases h
      intro h1
      apply hs
      rcases h1 with h1 | h1
      · left
        exact h1
      · right
        intro hnil
        rw [hnil] at h1
        simp at h1
    · cases h
  | dropLib =>
    simp only [step] at h
    split at h
    · cases h
      next hc =>
        simp only [Bool.and_eq_true, List.isEmpty_iff] at hc
        intro h1
        rcases h1 with h1 | h1
        · exact absurd hc.1.2 h1
        · exact absurd hc.2 h1
    · cases h

theorem run_preserves_handleInv {ops : List Op} :
    ∀ {s s1 : LibState}, handleInv s → run s ops = some s1 → handleInv s1 := by
  induction ops with
  | nil =>
    intro s s1 hs h
    cases h
    exact hs
  | cons op rest ih =>
    intro s s1 hs h
    simp only [run] at h
    cases hstep : step s op with
    | none => rw [hstep] at h; cases h
    | some s2 =>
      rw [hstep] at h
      exact ih (step_preserves_handleInv hs hstep) h

/-- C1: every `Track` (track.rs lines 10-14) and `Renderer` (render.rs lines
22-26) holds a shared borrow of its `Library`; in every sequence of
operations the borrow checker admits, a state in which any such derived
handle is alive has the library alive, and destroying the library in a
state with a live derived handle is unrepresentable (`step` rejects it). -/
theorem c1_context_outlives_handles :
    (∀ (ops : List Op) (s1 : LibState),
      run initState ops = some s1 → handleInv s1) ∧
    (∀ s : LibState, (s.tracks ≠ [] ∨ s.renderers ≠ []) →
      step s Op.dropLib = none) := by
  constructor
  · intro ops s1 h
    exact run_preserves_handleInv handleInv_init h
  · intro s h
    have hf : (s.tracks.isEmpty && s.renderers.isEmpty) = false := by
      rcases h with h | h
      · cases htr : s.tracks with
        | nil => exact absurd htr h
        | cons a l => simp
      · cases hr : s.renderers with
        | nil => exact absurd hr h
        | cons a l => simp
    simp only [step]
    rw [if_neg]
    intro hc
    simp only [Bool.and_eq_true] at hc
    rw [hc.1.2, hc.2] at hf
    cases hf

/-- Witness for C1: after creating one track from a fresh library, the
reachable state has the track alive and the library alive. -/
theorem c1_context_outlives_handles_witness :
    run initState [Op.newTrack 0] = some ⟨true, [0], []⟩ ∧
    (LibState.mk true [0] []).libAlive = true := by
  refine ⟨by decide, ?_⟩
  exact c1_context_outlives_handles.1 [Op.newTrack 0] ⟨true, [0], []⟩ (by decide)
    (Or.inl (by decide))

/-- C3: `Track::process_slice` succeeds exactly when the chunk's byte
length is at most `i32::MAX = 2147483647`; a longer chunk yields
`SliceTooLong` and leaves the track state unchanged (no native call), and
a fitting chunk is copied in. -/
theorem c3_process_slice_length (s : TrackState) (data : List Nat) :
    ((process_slice s data).1 = Except.ok () ↔ data.length ≤ 2147483647) ∧
    (data.length ≤ 2147483647 →
      process_slice s data = (Except.ok (), ⟨s.chunks ++ [data]⟩)) ∧
    (2147483647 < data.length →
      process_slice s data = (Except.error SliceTooLong.mk, s)) := by
  unfold process_slice
  split
  next hle =>
    refine ⟨by simp [hle], fun _ => rfl, fun hc => absurd hle (by omega)⟩
  next hgt =>
    refine ⟨by simp [hgt], fun hc => absurd hc hgt, fun _ => rfl⟩

/-- Witness for C3: a chunk of `2^31` bytes exceeds the bound, is rejected
with `SliceTooLong`, and the track state is unchanged. -/
theorem c3_process_slice_length_witness :
    2147483647 < (List.replicate 2147483648 (0 : Nat)).length ∧
    process_slice ⟨[]⟩ (List.replicate 2147483648 (0 : Nat)) =
      (Except.error SliceTooLong.mk, ⟨[]⟩) := by
  refine ⟨by rw [List.length_replicate]; norm_num, ?_⟩
  exact (c3_process_slice_length ⟨[]⟩ (List.replicate 2147483648 0)).2.2
    (by rw [List.length_replicate]; norm_num)

theorem u32_try_i32_getD_of_big {n : Nat} (d : Int) (hn : 2147483647 < n) :
    (u32_try_i32 n).getD d = d := by
  unfold u32_try_i32
  rw [if_neg (by omega)]
  rfl

theorem u32_try_i32_getD_of_fit {n : Nat} (d : Int) (hn : n ≤ 2147483647) :
    (u32_try_i32 n).getD d = n := by
  unfold u32_try_i32
  rw [if_pos hn]
  rfl

/-- Counterexample to C4: `Renderer::set_frame_size`, `set_storage_size`
and `set_cache_limits` return `()` in the source — there is no error in
their types — and for arguments above `i32::MAX` they silently substitute
another value: the frame and storage setters forward 0, the cache setter
forwards `i32::MAX`. -/
theorem c4_counterexample :
    set_frame_size 2147483648 1080 = (0, 1080) ∧
    set_storage_size 2147483648 1080 = (0, 1080) ∧
    set_cache_limits 2147483648 64 = (2147483647, 64) ∧
    2147483647 < 2147483648 := by
  refine ⟨rfl, rfl, rfl, by norm_num⟩

/-- C4 (amended): a width/height argument of `set_frame_size` or
`set_storage_size` that does not fit the native signed 32-bit width is
forwarded as 0, and an oversized `set_cache_limits` argument is forwarded
as `i32::MAX`; fitting arguments are forwarded unchanged.  No typed error
is produced (the setters are infallible in the source). -/
theorem c4_numeric_setters_amended (w h g b : Nat) :
    (2147483647 < w → (set_frame_size w h).1 = 0) ∧
    (w ≤ 2147483647 → (set_frame_size w h).1 = w) ∧
    (2147483647 < h → (set_frame_size w h).2 = 0) ∧
    (h ≤ 2147483647 → (set_frame_size w h).2 = h) ∧
    (2147483647 < w → (set_storage_size w h).1 = 0) ∧
    (w ≤ 2147483647 → (set_storage_size w h).1 = w) ∧
    (2147483647 < h → (set_storage_size w h).2 = 0) ∧
    (h ≤ 2147483647 → (set_storage_size w h).2 = h) ∧
    (2147483647 < g → (set_cache_limits g b).1 = 2147483647) ∧
    (g ≤ 2147483647 → (set_cache_limits g b).1 = g) ∧
    (2147483647 < b → (set_cache_limits g b).2 = 2147483647) ∧
    (b ≤ 2147483647 → (set_cache_limits g b).2 = b) := by
  exact ⟨fun hb => u32_try_i32_getD_of_big 0 hb,
    fun hb => u32_try_i32_getD_of_fit 0 hb,
    fun hb => u32_try_i32_getD_of_big 0 hb,
    fun hb => u32_try_i32_getD_of_fit 0 hb,
    fun hb => u32_try_i32_getD_of_big 0 hb,
    fun hb => u32_try_i32_getD_of_fit 0 hb,
    fun hb => u32_try_i32_getD_of_big 0 hb,
    fun hb => u32_try_i32_getD_of_fit 0 hb,
    fun hb => u32_try_i32_getD_of_big 2147483647 hb,
    fun hb => u32_try_i32_getD_of_fit 2147483647 hb,
    fun hb => u32_try_i32_getD_of_big 2147483647 hb,
    fun hb => u32_try_i32_getD_of_fit 2147483647 hb⟩

/-- Witness for C4 (amended): an oversized width is forwarded as 0, an
in-range height unchanged, and an oversized glyph limit saturates. -/
theorem c4_numeric_setters_amended_witness :
    2147483647 < 2147483648 ∧
    (set_frame_size 2147483648 1080).1 = 0 ∧
    (set_frame_size 2147483648 1080).2 = 1080 ∧
    (set_cache_limits 2147483648 64).1 = 2147483647 := by
  refine ⟨by norm_num, ?_, ?_, ?_⟩
  · exact (c4_numeric_setters_amended 2147483648 1080 0 0).1 (by norm_num)
  · exact (c4_numeric_setters_amended 2147483648 1080 0 0).2.2.2.1 (by norm_num)
  · exact (c4_numeric_setters_amended 0 0 2147483648 64).2.2.2.2.2.2.2.2.1 (by norm_num)

/-- C5: `Library::get_avaliable_font_providers` maps a null native array
to the empty sequence, but it builds the returned vector by
reinterpreting the raw native integers as `FontProvider`
(`slice::from_raw_parts(out_buf.as_ptr().cast(), count)`), bypassing the
`impl From<i32> for FontProvider` that the source defines right below it:
a native value such as 100 flows through unconverted even though it is
not the representation of any defined variant (the defined conversion
would have mapped it to `FontProvider.None`). -/
theorem c5_font_providers_passthrough :
    get_avaliable_font_providers none = ([] : List Int) ∧
    get_avaliable_font_providers (some []) = ([] : List Int) ∧
    get_avaliable_font_providers (some [100]) = [100] ∧
    (allFontProviders.map FontProvider.toI32).contains 100 = false ∧
    fontProviderOfI32 100 = FontProvider.None := by
  refine ⟨rfl, rfl, rfl, by decide, by decide⟩

/-- C6: when the opaque closure pointer is valid, a null native message
pointer or a message that fails UTF-8 validation still results in exactly
one invocation of the registered closure, with the empty string as the
message. -/
theorem c6_message_empty_fallback (level : Int) (fmt : Option (List Nat))
    (h : fmt = none ∨ ∃ b, fmt = some b ∧ validUtf8 b = false) :
    message_handler level fmt true = some (LogLevel.ofI32 level, []) := by
  rcases h with h | ⟨b, hb, hv⟩
  · rw [h]
    rfl
  · rw [hb]
    simp [message_handler, decodeMessage, hv]

/-- Witness for C6: the byte 0xFF is not valid UTF-8, and the trampoline
still invokes the closure once with the empty message. -/
theorem c6_message_empty_fallback_witness :
    (some [255] = (none : Option (List Nat)) ∨
      ∃ b, some [255] = some b ∧ validUtf8 b = false) ∧
    message_handler 2 (some [255]) true = some (LogLevel.ofI32 2, []) := by
  refine ⟨Or.inr ⟨[255], rfl, by decide⟩, ?_⟩
  exact c6_message_empty_fallback 2 (some [255]) (Or.inr ⟨[255], rfl, by decide⟩)

/-- C7: when the opaque context pointer reconstructs to no valid closure
reference (null pointer), the trampoline invocation is a no-op: the
closure is not called and the function returns normally. -/
theorem c7_null_context_noop (level : Int) (fmt : Option (List Nat)) :
    message_handler level fmt false = none := by
  simp [message_handler]

/-- C8: a timestamp whose whole-millisecond value does not fit the native
`long long` makes `Renderer::render_frame` return `None` without
panicking, and `ass_render_frame` is not invoked (the `?` on
`try_into().ok()` returns before the native call); the change-detection
slot is left as passed. -/
theorem c8_render_frame_timestamp (ms : Int) (detect : Option ChangeDetection)
    (native : Int → Int → Option Nat × Int)
    (h : ms < -9223372036854775808 ∨ 9223372036854775807 < ms) :
    render_frame ms detect native = some (none, detect, false) := by
  have hc : ¬(-9223372036854775808 ≤ ms ∧ ms ≤ 9223372036854775807) := by
    rcases h with h | h <;> intro hc <;> omega
  cases detect <;> simp [render_frame, hc]

/-- Witness for C8: `2^63` milliseconds does not fit an `i64`; the render
call returns no image list, leaves the slot unchanged, and the native
call flag is false. -/
theorem c8_render_frame_timestamp_witness :
    ((9223372036854775808 : Int) < -9223372036854775808 ∨
      (9223372036854775807 : Int) < 9223372036854775808) ∧
    render_frame 9223372036854775808 (some ChangeDetection.Identical)
      (fun _ _ => (none, 0)) = some (none, some ChangeDetection.Identical, false) := by
  refine ⟨Or.inr (by norm_num), ?_⟩
  exact c8_render_frame_timestamp 9223372036854775808 (some ChangeDetection.Identical)
    (fun _ _ => (none, 0)) (Or.inr (by norm_num))

/-- C10: the conversion from a native `i32` severity to `LogLevel` is a
total function; every integer other than 0, 1, 2, 4, 6, 7 maps to
`LogLevel.Application`, and a valid trampoline invocation always hands
the registered closure `LogLevel.ofI32 level` — a defined variant — for
whatever integer the native engine passed. -/
theorem c10_loglevel_total :
    (∀ n : Int, n ≠ 0 → n ≠ 1 → n ≠ 2 → n ≠ 4 → n ≠ 6 → n ≠ 7 →
      LogLevel.ofI32 n = LogLevel.Application) ∧
    (∀ (level : Int) (fmt : Option (List Nat)),
      message_handler level fmt true =
        some (LogLevel.ofI32 level, decodeMessage fmt)) := by
  constructor
  · intro n h0 h1 h2 h4 h6 h7
    simp [LogLevel.ofI32, h0, h1, h2, h4, h6, h7]
  · intro level fmt
    simp [message_handler]

/-- Witness for C10: 3 is none of the named discriminants and converts to
`Application`. -/
theorem c10_loglevel_total_witness :
    ((3 : Int) ≠ 0 ∧ (3 : Int) ≠ 1 ∧ (3 : Int) ≠ 2 ∧ (3 : Int) ≠ 4 ∧
      (3 : Int) ≠ 6 ∧ (3 : Int) ≠ 7) ∧
    LogLevel.ofI32 3 = LogLevel.Application := by
  refine ⟨⟨by decide, by decide, by decide, by decide, by decide, by decide⟩, ?_⟩
  exact c10_loglevel_total.1 3 (by decide) (by decide) (by decide) (by decide)
    (by decide) (by decide)

theorem optPathToPtr_of_ok {o : Option (List Nat)} (h : optOk o = true) :
    optPathToPtr o = Except.ok o := by
  cases o with
  | none => rfl
  | some p =>
    simp only [optOk, pathOk, Bool.and_eq_true, Bool.not_eq_true'] at h
    have hmem : 0 ∉ p := by simpa using h.2
    simp [optPathToPtr, path_to_ptr, Except.map, h.1, hmem]

theorem optPathToPtr_of_bad {o : Option (List Nat)} (h : optOk o = false) :
    ∃ e, optPathToPtr o = Except.error e ∧ errMatches e o := by
  cases o with
  | none => cases h
  | some p =>
    simp only [optOk, pathOk, Bool.and_eq_false_iff, Bool.not_eq_false'] at h
    cases hv : validUtf8 p with
    | false =>
      refine ⟨PathErr.NotUtf8 p, ?_, p, rfl, Or.inl ⟨rfl, hv⟩⟩
      simp [optPathToPtr, path_to_ptr, Except.map, hv]
    | true =>
      have hz : p.contains 0 = true := by
        rcases h with h | h
        · rw [hv] at h; cases h
        · exact h
      have hmem : 0 ∈ p := by simpa using hz
      refine ⟨PathErr.NullInPath, ?_, p, rfl, Or.inr ⟨rfl, hv, hz⟩⟩
      simp [optPathToPtr, path_to_ptr, Except.map, hv, hmem]

theorem set_fonts_err_font {df dfam : Option (List Nat)} {prov : FontProvider}
    {fc : Option (List Nat)} {upd : Bool} {e : PathErr}
    (h : optPathToPtr df = Except.error e) :
    set_fonts df dfam prov fc upd = Except.error e := by
  unfold set_fonts
  rw [h]

theorem set_fonts_err_family {df dfam : Option (List Nat)} {prov : FontProvider}
    {fc : Option (List Nat)} {upd : Bool} {f : Option (List Nat)} {e : PathErr}
    (h1 : optPathToPtr df = Except.ok f) (h2 : optPathToPtr dfam = Except.error e) :
    set_fonts df dfam prov fc upd = Except.error e := by
  unfold set_fonts
  rw [h1, h2]

theorem set_fonts_err_config {df dfam : Option (List Nat)} {prov : FontProvider}
    {fc : Option (List Nat)} {upd : Bool} {f g : Option (List Nat)} {e : PathErr}
    (h1 : optPathToPtr df = Except.ok f) (h2 : optPathToPtr dfam = Except.ok g)
    (h3 : optPathToPtr (if prov = FontProvider.Fontconfig then none else fc) =
      Except.error e) :
    set_fonts df dfam prov fc upd = Except.error e := by
  unfold set_fonts
  rw [h1, h2]
  simp only
  rw [h3]

theorem set_fonts_all_ok {df dfam : Option (List Nat)} {prov : FontProvider}
    {fc : Option (List Nat)} {upd : Bool} {f g c : Option (List Nat)}
    (h1 : optPathToPtr df = Except.ok f) (h2 : optPathToPtr dfam = Except.ok g)
    (h3 : optPathToPtr (if prov = FontProvider.Fontconfig then none else fc) =
      Except.ok c) :
    set_fonts df dfam prov fc upd = Except.ok ⟨f, g, prov, c, upd⟩ := by
  unfold set_fonts
  rw [h1, h2]
  simp only
  rw [h3]

/-- Counterexample to C2: when the selected provider is `Fontconfig`, the
supplied `fontconfig_config` path is discarded before conversion, so a
path that is not valid UTF-8 (here the single byte 0xFF) does not produce
`PathErr::NotUtf8` — the call succeeds and the native call is performed
with a null configuration pointer. -/
theorem c2_counterexample :
    validUtf8 [255] = false ∧
    set_fonts none none FontProvider.Fontconfig (some [255]) true =
      Except.ok ⟨none, none, FontProvider.Fontconfig, none, true⟩ := by
  exact ⟨by decide, rfl⟩

/-- C2 (amended): `Renderer::set_fonts` first discards `fontconfig_config`
when `font_provider` is `Fontconfig`; it succeeds — performing the native
`ass_set_fonts` call with exactly the supplied path bytes — if and only
if every remaining supplied path is valid UTF-8 with no embedded NUL;
otherwise it returns a `PathErr` (`NotUtf8` for a non-UTF-8 path,
`NullInPath` for an embedded NUL) matching one of the supplied paths, and
no native call is performed. -/
theorem c2_set_fonts_paths (df dfam : Option (List Nat)) (prov : FontProvider)
    (fc : Option (List Nat)) (upd : Bool) :
    (set_fonts df dfam prov fc upd =
        Except.ok ⟨df, dfam, prov, if prov = FontProvider.Fontconfig then none else fc, upd⟩ ↔
      (optOk df && optOk dfam &&
        optOk (if prov = FontProvider.Fontconfig then none else fc)) = true) ∧
    ((optOk df && optOk dfam &&
        optOk (if prov = FontProvider.Fontconfig then none else fc)) = false →
      ∃ e, set_fonts df dfam prov fc upd = Except.error e) ∧
    (∀ e, set_fonts df dfam prov fc upd = Except.error e →
      errMatches e df ∨ errMatches e dfam ∨
        errMatches e (if prov = FontProvider.Fontconfig then none else fc)) := by
  cases h1 : optOk df with
  | false =>
    obtain ⟨e1, he1, hm1⟩ := optPathToPtr_of_bad h1
    rw [set_fonts_err_font he1]
    refine ⟨by simp [h1], fun _ => ⟨e1, rfl⟩, ?_⟩
    intro e he
    cases he
    exact Or.inl hm1
  | true =>
    have hok1 := optPathToPtr_of_ok h1
    cases h2 : optOk dfam with
    | false =>
      obtain ⟨e2, he2, hm2⟩ := optPathToPtr_of_bad h2
      rw [set_fonts_err_family hok1 he2]
      refine ⟨by simp [h2], fun _ => ⟨e2, rfl⟩, ?_⟩
      intro e he
      cases he
      exact Or.inr (Or.inl hm2)
    | true =>
      have hok2 := optPathToPtr_of_ok h2
      cases h3 : optOk (if prov = FontProvider.Fontconfig then none else fc) with
      | false =>
        obtain ⟨e3, he3, hm3⟩ := optPathToPtr_of_bad h3
        rw [set_fonts_err_config hok1 hok2 he3]
        refine ⟨by simp [h1, h2, h3], fun _ => ⟨e3, rfl⟩, ?_⟩
        intro e he
        cases he
        exact Or.inr (Or.inr hm3)
      | true =>
        have hok3 := optPathToPtr_of_ok h3
        rw [set_fonts_all_ok hok1 hok2 hok3]
        refine ⟨by simp [h1, h2, h3], by simp [h1, h2, h3], ?_⟩
        intro e he
        cases he

/-- Witness for C2 (amended): a plain one-byte UTF-8 path is accepted and
passed through to the native call unchanged. -/
theorem c2_set_fonts_paths_witness :
    (optOk (some [104]) && optOk none && optOk none) = true ∧
    set_fonts (some [104]) none FontProvider.Autodetect none false =
      Except.ok ⟨some [104], none, FontProvider.Autodetect, none, false⟩ := by
  refine ⟨by decide, ?_⟩
  exact (c2_set_fonts_paths (some [104]) none FontProvider.Autodetect none false).1.mpr
    (by decide)

/-- Counterexample to C9: NaN is an `f64` argument, `f64::clamp` returns
NaN unchanged (both of its comparisons are false on NaN), so the value
forwarded to the native call is NaN, which does not lie in `[0, 100]`. -/
theorem c9_counterexample :
    set_line_position F64.nan = F64.nan ∧
    inLinePosRange (set_line_position F64.nan) = false :=
  ⟨rfl, rfl⟩

/-- C9 (amended): for every non-NaN `f64` argument the value forwarded to
the native call lies in `[0, 100]` — finite values below 0 and negative
infinity are forwarded as 0, finite values above 100 and positive
infinity as 100, in-range values unchanged; a NaN argument alone is
forwarded as NaN. -/
theorem c9_line_position_clamp :
    (∀ x : ℚ, (x < 0 → set_line_position (F64.val x) = F64.val 0) ∧
      (100 < x → set_line_position (F64.val x) = F64.val 100) ∧
      (0 ≤ x → x ≤ 100 → set_line_position (F64.val x) = F64.val x)) ∧
    set_line_position F64.negInf = F64.val 0 ∧
    set_line_position F64.posInf = F64.val 100 ∧
    (∀ v : F64, v ≠ F64.nan → inLinePosRange (set_line_position v) = true) := by
  have hlow : ∀ x : ℚ, x < 0 → set_line_position (F64.val x) = F64.val 0 := by
    intro x hx
    norm_num [set_line_position, F64.clamp, F64.lt, hx]
  have hhigh : ∀ x : ℚ, 100 < x → set_line_position (F64.val x) = F64.val 100 := by
    intro x hx
    have hx0 : ¬x < 0 := by linarith
    norm_num [set_line_position, F64.clamp, F64.lt, hx0, hx]
  have hmid : ∀ x : ℚ, 0 ≤ x → x ≤ 100 → set_line_position (F64.val x) = F64.val x := by
    intro x h0 h1
    norm_num [set_line_position, F64.clamp, F64.lt, not_lt.2 h0, not_lt.2 h1]
  have hneg : set_line_position F64.negInf = F64.val 0 := by
    norm_num [set_line_position, F64.clamp, F64.lt]
  have hpos : set_line_position F64.posInf = F64.val 100 := by
    norm_num [set_line_position, F64.clamp, F64.lt]
  refine ⟨fun x => ⟨hlow x, hhigh x, hmid x⟩, hneg, hpos, ?_⟩
  intro v hv
  cases v with
  | nan => exact absurd rfl hv
  | negInf =>
    rw [hneg]
    decide
  | posInf =>
    rw [hpos]
    decide
  | val x =>
    rcases lt_or_le x 0 with hx | hx0
    · rw [hlow x hx]
      decide
    · rcases le_or_lt x 100 with hx1 | hx1
      · rw [hmid x hx0 hx1]
        simp only [inLinePosRange, decide_eq_true_eq]
        exact ⟨hx0, hx1⟩
      · rw [hhigh x hx1]
        decide

/-- Witness for C9 (amended): the finite value -5 is below the range and
is forwarded as 0. -/
theorem c9_line_position_clamp_witness :
    ((-5 : ℚ) < 0) ∧ set_line_position (F64.val (-5)) = F64.val 0 :=
  ⟨by norm_num, (c9_line_position_clamp.1 (-5)).1 (by norm_num)⟩

end Ferass
